import Mathlib

/-!
Verification of the GoQuant trade-simulator core against its specification.

The Python source is embedded shallowly:

* `OrderbookData` (src/websocket_client.py) is modelled over `ℚ`; the spec
  treats the floating-point arithmetic as exact, and every claim about the
  order book is settled on decimal inputs that rationals represent exactly.
* The cost models (src/models/*.py) and `TradeSimulator.simulate_trade`
  (src/main.py) are modelled over `ℝ` because the Almgren-Chriss model uses
  `np.sqrt` and the fitted classifier a logistic function.
* Python `float` division by zero raises `ZeroDivisionError`; wherever a
  claim depends on that behaviour the embedding returns `Except.error`.
-/

namespace GoQuant

/-- Lower-cases one ASCII character, as Python `str.lower` does on the ASCII
plane (all strings compared by the source are ASCII). -/
def charLower (c : Char) : Char :=
  if 'A' ≤ c ∧ c ≤ 'Z' then Char.ofNat (c.toNat + 32) else c

/-- Python `str.lower` restricted to ASCII strings. -/
def strLower (s : String) : String :=
  ⟨s.data.map charLower⟩

/-- One price level of an order-book ladder: a `[price, quantity]` pair from
the raw feed frame (`asks`/`bids` rows in `OrderbookData.__init__`). -/
structure Level where
  price : ℚ
  qty : ℚ
deriving DecidableEq, Repr

/-- Insert one level into an ascending-by-price list (helper for
`sortAsc`). -/
def insertAsc (x : Level) : List Level → List Level
  | [] => [x]
  | y :: ys => if x.price ≤ y.price then x :: y :: ys else y :: insertAsc x ys

/-- Insertion sort ascending by price; models
`sort_values('price', ascending=True)` (tie order is irrelevant to every
claim). -/
def sortAsc : List Level → List Level
  | [] => []
  | x :: xs => insertAsc x (sortAsc xs)

/-- Insert one level into a descending-by-price list (helper for
`sortDesc`). -/
def insertDesc (x : Level) : List Level → List Level
  | [] => [x]
  | y :: ys => if y.price ≤ x.price then x :: y :: ys else y :: insertDesc x ys

/-- Insertion sort descending by price; models
`sort_values('price', ascending=False)`. -/
def sortDesc : List Level → List Level
  | [] => []
  | x :: xs => insertDesc x (sortDesc xs)

/-- Running cumulative sums of a list with accumulator `acc`
(helper for `cumsum`). -/
def cumsumAux (acc : ℚ) : List ℚ → List ℚ
  | [] => []
  | x :: xs => (acc + x) :: cumsumAux (acc + x) xs

/-- Cumulative sums, as `Series.cumsum` computes the
`cumulative_quantity` and `cumulative_notional` columns. -/
def cumsum (l : List ℚ) : List ℚ := cumsumAux 0 l

/-- An `OrderbookData` snapshot: asks sorted ascending by price and bids
sorted descending, exactly as `OrderbookData.__init__` leaves its two
DataFrames. The derived columns (`cumulative_quantity`, `notional`,
`cumulative_notional`) are recomputed on demand by the functions below. -/
structure OrderbookData where
  asks : List Level
  bids : List Level
deriving DecidableEq, Repr

/-- Builds an `OrderbookData` from the raw `asks`/`bids` rows of a feed
frame: asks sorted ascending by price, bids descending
(`OrderbookData.__init__`). -/
def mkOrderbook (asks bids : List (ℚ × ℚ)) : OrderbookData :=
  { asks := sortAsc (asks.map fun p => ⟨p.1, p.2⟩)
    bids := sortDesc (bids.map fun p => ⟨p.1, p.2⟩) }

/-- The `notional` column: price times quantity per level. -/
def notionalCol (df : List Level) : List ℚ := df.map fun l => l.price * l.qty

/-- The `cumulative_quantity` column of a ladder. -/
def cumQtyCol (df : List Level) : List ℚ := cumsum (df.map (·.qty))

/-- The `cumulative_notional` column of a ladder. -/
def cumNotionalCol (df : List Level) : List ℚ := cumsum (notionalCol df)

/-- Best ask price: `asks_df.iloc[0]['price']` if the ladder is non-empty,
else `0` (`OrderbookData.mid_price`). -/
def bestAsk (ob : OrderbookData) : ℚ := ((ob.asks.head?).map (·.price)).getD 0

/-- Best bid price, `0` for an empty bid ladder. -/
def bestBid (ob : OrderbookData) : ℚ := ((ob.bids.head?).map (·.price)).getD 0

/-- `OrderbookData.mid_price`: `(best_ask + best_bid) / 2 if best_ask and
best_bid else 0` — the Python truthiness test means both best prices must be
non-zero. -/
def mid_price (ob : OrderbookData) : ℚ :=
  if bestAsk ob ≠ 0 ∧ bestBid ob ≠ 0 then (bestAsk ob + bestBid ob) / 2 else 0

/-- `OrderbookData.spread`: `best_ask - best_bid if best_ask and best_bid
else 0`. -/
def spread (ob : OrderbookData) : ℚ :=
  if bestAsk ob ≠ 0 ∧ bestBid ob ≠ 0 then bestAsk ob - bestBid ob else 0

/-- `OrderbookData.spread_bps`: `(spread / mid) * 10000 if mid else 0`. -/
def spread_bps (ob : OrderbookData) : ℚ :=
  if mid_price ob ≠ 0 then spread ob / mid_price ob * 10000 else 0

/-- Left-bisection `Series.searchsorted`: on the nondecreasing
`cumulative_quantity` column it returns the first index whose entry is at
least `q`, or the length when every entry is below `q`. -/
def searchSorted (q : ℚ) : List ℚ → Nat
  | [] => 0
  | c :: cs => if q ≤ c then 0 else searchSorted q cs + 1

/-- Outcome of `OrderbookData.get_price_for_quantity`: a price, the `None`
returned for insufficient liquidity, or the `IndexError` raised by
`df.iloc[:idx-1]['cumulative_quantity'].iloc[-1]` when that slice is empty. -/
inductive ExecPrice where
  | ok (p : ℚ)
  | insufficient
  | err
deriving DecidableEq, Repr

/-- `OrderbookData.get_price_for_quantity(quantity, side)`, line by line.
For `idx ≥ 1` the source reads
`df.iloc[:idx-1]['cumulative_quantity'].iloc[-1]`, i.e. the cumulative
quantity at row `idx - 2`, which raises `IndexError` when `idx = 1`. -/
def get_price_for_quantity (ob : OrderbookData) (quantity : ℚ) (side : String) :
    ExecPrice :=
  let df := if strLower side = "buy" then ob.asks else ob.bids
  let idx := searchSorted quantity (cumQtyCol df)
  if df.length ≤ idx then .insufficient
  else if idx = 0 then .ok (((df.head?).map (·.price)).getD 0)
  else if idx = 1 then .err
  else
    let total_notional := (notionalCol (df.take idx)).sum
    let remaining_quantity := quantity - (((cumQtyCol df).get? (idx - 2)).getD 0)
    .ok ((total_notional + remaining_quantity *
      (((df.get? idx).map (·.price)).getD 0)) / quantity)

/-- Total quantity available on a ladder. -/
def totalQty (df : List Level) : ℚ := (df.map (·.qty)).sum

/-- Notional consumed by filling `q` against a ladder, taking every level
before the crossing level in full and interpolating the partial fill
(helper for `spec_price_for_quantity`). -/
def fillNotional (q : ℚ) : List Level → ℚ
  | [] => 0
  | l :: rest =>
      if q ≤ l.qty then q * l.price
      else l.qty * l.price + fillNotional (q - l.qty) rest

/-- Modelled from the spec, for comparison with `get_price_for_quantity`:
"the quantity-weighted average execution price required to fill `quantity`
by walking the cumulative-quantity ladder on the requested side …; returns
'insufficient liquidity' if the ladder's total quantity is less than
requested." -/
def spec_price_for_quantity (ob : OrderbookData) (quantity : ℚ) (side : String) :
    Option ℚ :=
  let df := if strLower side = "buy" then ob.asks else ob.bids
  if totalQty df < quantity then none
  else some (fillNotional quantity df / quantity)

/-- Two-level ask ladder on which the crossing level for quantity 3 is
index 1. -/
def exBook1 : OrderbookData :=
  mkOrderbook [(100, 2), (101, 3)] [(99, 1), (98, 5)]

/-- Three-level ask ladder exposing the mis-weighted average at crossing
index 2. -/
def exBook2 : OrderbookData :=
  mkOrderbook [(100, 2), (101, 3), (102, 5)] [(99, 1)]

/-- C1. On the snapshot with asks `[(100, 2), (101, 3)]`, a buy of
quantity 3 crosses at level index 1 (cumulative quantities `[2, 5]`), well
within the available quantity 5; the claim says the quantity-weighted
average price `301/3` is returned, but `get_price_for_quantity` evaluates
`df.iloc[:0]['cumulative_quantity'].iloc[-1]` on an empty slice and raises
`IndexError`.  (For crossing index ≥ 2 the same off-by-one instead reads
`cumulative_quantity[idx-2]` and mis-weights the average, see the C2
counterexample.) -/
theorem c1_partial_fill_raises_instead_of_weighted_average :
    get_price_for_quantity exBook1 3 "buy" = .err ∧
      spec_price_for_quantity exBook1 3 "buy" = some (301 / 3) ∧
      3 ≤ totalQty exBook1.asks := by
  refine ⟨?_, ?_, ?_⟩
  · norm_num [get_price_for_quantity, exBook1, mkOrderbook, sortAsc, insertAsc,
      sortDesc, insertDesc, cumQtyCol, cumsum, cumsumAux, searchSorted,
      notionalCol, show strLower "buy" = "buy" from rfl]
  · norm_num [spec_price_for_quantity, exBook1, mkOrderbook, sortAsc, insertAsc,
      sortDesc, insertDesc, totalQty, fillNotional,
      show strLower "buy" = "buy" from rfl]
  · norm_num [exBook1, mkOrderbook, sortAsc, insertAsc, sortDesc, insertDesc,
      totalQty]

/-- C2. On the snapshot with asks `[(100, 2), (101, 3), (102, 5)]`, the buy
quantities 6 and 7 are both within the available quantity 10, yet
`get_price_for_quantity` returns the average `911/6 ≈ 151.8` for quantity 6
and the strictly smaller `1013/7 ≈ 144.7` for quantity 7: increasing the
requested quantity decreases the reported average price on the ask side
(both values also exceed the best ask ladder's top price 102, the result of
the off-by-one `cumulative_quantity[idx-2]` read). -/
theorem c2_ask_side_average_price_not_monotone :
    get_price_for_quantity exBook2 6 "buy" = .ok (911 / 6) ∧
      get_price_for_quantity exBook2 7 "buy" = .ok (1013 / 7) ∧
      (6 : ℚ) ≤ 7 ∧
      7 ≤ totalQty exBook2.asks ∧
      (1013 / 7 : ℚ) < 911 / 6 := by
  refine ⟨?_, ?_, by norm_num, ?_, by norm_num⟩
  · norm_num [get_price_for_quantity, exBook2, mkOrderbook, sortAsc, insertAsc,
      sortDesc, insertDesc, cumQtyCol, cumsum, cumsumAux, searchSorted,
      notionalCol, show strLower "buy" = "buy" from rfl]
  · norm_num [get_price_for_quantity, exBook2, mkOrderbook, sortAsc, insertAsc,
      sortDesc, insertDesc, cumQtyCol, cumsum, cumsumAux, searchSorted,
      notionalCol, show strLower "buy" = "buy" from rfl]
  · norm_num [exBook2, mkOrderbook, sortAsc, insertAsc, sortDesc, insertDesc,
      totalQty]

/-- C4. For every snapshot built from raw ladders with an empty ask side or
an empty bid side, `mid_price`, `spread` and `spread_bps` all return
exactly 0: the three functions are total (they never raise) and rational
(no NaN exists), and the empty side forces the degenerate branch of each
guard. -/
theorem c4_empty_side_degenerates_to_zero (asks bids : List (ℚ × ℚ))
    (h : asks = [] ∨ bids = []) :
    mid_price (mkOrderbook asks bids) = 0 ∧
      spread (mkOrderbook asks bids) = 0 ∧
      spread_bps (mkOrderbook asks bids) = 0 := by
  have hz : mid_price (mkOrderbook asks bids) = 0 ∧
      spread (mkOrderbook asks bids) = 0 := by
    rcases h with h | h <;> subst h <;>
      simp [mid_price, spread, bestAsk, bestBid, mkOrderbook, sortAsc, sortDesc]
  exact ⟨hz.1, hz.2, by simp [spread_bps, hz.1]⟩

/-- C4 witness: a concrete snapshot with an empty ask ladder. -/
theorem c4_empty_side_degenerates_to_zero_witness :
    mid_price (mkOrderbook [] [(99, 1)]) = 0 ∧
      spread (mkOrderbook [] [(99, 1)]) = 0 ∧
      spread_bps (mkOrderbook [] [(99, 1)]) = 0 :=
  c4_empty_side_degenerates_to_zero [] [(99, 1)] (Or.inl rfl)

/-! ### Streaming client reconnection (src/websocket_client.py `connect`,
src/utils/connection_manager.py `handle_connection_failure`) -/

/-- Status tokens delivered to the client's external `status_callback`,
either directly by `WebSocketClient.connect` or forwarded from
`ConnectionManager` through `_on_connection_status_change`. -/
inductive Status where
  | connecting
  | connected
  | connectionClosed
  | connectionError
  | reconnectingAttempt (k maxAttempts : Nat)
  | reconnectingWait
  | reconnectionFailed
  | noInternet
  | vpnNotDetected
  | vpnConnected
deriving DecidableEq, Repr

/-- Observable state of one `WebSocketClient` run: the `self.running` flag,
the connection manager's `reconnect_attempts` counter, and the sequence of
statuses delivered to the external callback so far. -/
structure ClientState where
  running : Bool
  reconnect_attempts : Nat
  statuses : List Status
deriving DecidableEq, Repr

/-- `ConnectionManager.handle_connection_failure`: increments the attempt
counter; past the ceiling it reports `Reconnection Failed` (forwarded to the
client's callback) and returns `False`, otherwise it reports
`Reconnecting (k/max)` and returns `True`. -/
def handle_connection_failure (maxAttempts : Nat) (s : ClientState) :
    Bool × ClientState :=
  let attempts := s.reconnect_attempts + 1
  if maxAttempts < attempts then
    (false, ⟨s.running, attempts, s.statuses ++ [.reconnectionFailed]⟩)
  else
    (true, ⟨s.running, attempts,
      s.statuses ++ [.reconnectingAttempt attempts maxAttempts]⟩)

/-- One iteration of the `while self.running` loop in
`WebSocketClient.connect` in which the connection attempt fails with an
exception: the client reports `Connecting...` then `Connection Error`, calls
`handle_connection_failure`, and either reports `Reconnecting...` and loops,
or — when the manager refuses — reports `Reconnection Failed` a second time,
clears `self.running` and returns.  On a stopped client the loop body does
not run. -/
def failStep (maxAttempts : Nat) (s : ClientState) : ClientState :=
  if s.running then
    let s1 : ClientState :=
      { s with statuses := s.statuses ++ [.connecting, .connectionError] }
    let r := handle_connection_failure maxAttempts s1
    if r.1 then
      { r.2 with statuses := r.2.statuses ++ [.reconnectingWait] }
    else
      let s2 : ClientState :=
        { r.2 with statuses := r.2.statuses ++ [.reconnectionFailed] }
      { s2 with running := false }
  else s

/-- Client state on entry to the receive/reconnect loop, assuming the
pre-loop `check_connection` found internet and VPN present (it then emitted
`VPN Connected` through the forwarded callback): `self.running = True` and a
fresh attempt counter. -/
def connectInit : ClientState := ⟨true, 0, [.vpnConnected]⟩

/-- The client state after `n` consecutive failed connection attempts of a
freshly started client against a ceiling of `maxAttempts`. -/
def runFailures (maxAttempts n : Nat) : ClientState :=
  (failStep maxAttempts)^[n] connectInit

/-- `ConnectionManager.reset_reconnect_attempts`, called by the explicit
external restart path (`TradeSimulator.reconnect`). -/
def reset_reconnect_attempts (s : ClientState) : ClientState :=
  { s with reconnect_attempts := 0 }

/-- C3 counterexample.  With the configured ceiling
`max_reconnect_attempts = 10`, after 10 consecutive connection failures the
client is still running and `Reconnection Failed` has never been emitted:
the terminal transition only fires on the failure that makes the counter
exceed the ceiling, i.e. on failure 11. -/
theorem c3_still_running_after_max_failures :
    (runFailures 10 10).running = true ∧
      (runFailures 10 10).statuses.count .reconnectionFailed = 0 ∧
      (runFailures 10 10).reconnect_attempts = 10 := by
  decide

/-- Invariant: while the attempt counter stays within the ceiling the
client keeps running and never emits `Reconnection Failed`. -/
theorem runFailures_within_ceiling (maxAttempts : Nat) :
    ∀ k, k ≤ maxAttempts →
      (runFailures maxAttempts k).running = true ∧
        (runFailures maxAttempts k).reconnect_attempts = k ∧
        (runFailures maxAttempts k).statuses.count .reconnectionFailed = 0 := by
  intro k
  induction k with
  | zero => intro _; refine ⟨rfl, rfl, ?_⟩; simp [runFailures, connectInit]
  | succ k ih =>
      intro hk
      obtain ⟨hr, ha, hc⟩ := ih (Nat.le_of_succ_le hk)
      have hstep : runFailures maxAttempts (k + 1)
          = failStep maxAttempts (runFailures maxAttempts k) := by
        simp [runFailures, Function.iterate_succ_apply']
      rw [hstep]
      simp only [failStep, handle_connection_failure, hr, ha, if_true]
      have hle : ¬ maxAttempts < k + 1 := Nat.not_lt.mpr hk
      simp [hle, List.count_append, hc]

/-- A stopped client never runs the loop body again. -/
theorem failStep_stopped (maxAttempts : Nat) (s : ClientState)
    (h : s.running = false) : failStep maxAttempts s = s := by
  simp [failStep, h]

/-- C3, amended.  After `max_reconnect_attempts + 1` consecutive connection
failures — the failure on which the counter first exceeds the ceiling — the
client clears `self.running` (the receive/reconnect loop stops), the
`Reconnection Failed` status has been delivered exactly twice (once
forwarded from `ConnectionManager.handle_connection_failure` and once
directly by `WebSocketClient.connect`), further failure iterations leave the
state unchanged until an explicit restart, and the explicit restart path
resets the attempt counter to zero. -/
theorem c3_terminal_after_ceiling_exceeded (maxAttempts : Nat) :
    (runFailures maxAttempts (maxAttempts + 1)).running = false ∧
      (runFailures maxAttempts (maxAttempts + 1)).statuses.count
        .reconnectionFailed = 2 ∧
      (∀ m, (failStep maxAttempts)^[m]
          (runFailures maxAttempts (maxAttempts + 1))
        = runFailures maxAttempts (maxAttempts + 1)) ∧
      (reset_reconnect_attempts
        (runFailures maxAttempts (maxAttempts + 1))).reconnect_attempts = 0 := by
  obtain ⟨hr, ha, hc⟩ :=
    runFailures_within_ceiling maxAttempts maxAttempts (Nat.le_refl _)
  have hstep : runFailures maxAttempts (maxAttempts + 1)
      = failStep maxAttempts (runFailures maxAttempts maxAttempts) := by
    simp [runFailures, Function.iterate_succ_apply']
  have hlt : maxAttempts < maxAttempts + 1 := Nat.lt_succ_self _
  have hterm : (runFailures maxAttempts (maxAttempts + 1)).running = false ∧
      (runFailures maxAttempts (maxAttempts + 1)).statuses.count
        .reconnectionFailed = 2 := by
    rw [hstep]
    simp only [failStep, handle_connection_failure, hr, ha, if_true]
    simp [hlt, List.count_append, hc]
  refine ⟨hterm.1, hterm.2, ?_, rfl⟩
  intro m
  induction m with
  | zero => rfl
  | succ m ih =>
      rw [Function.iterate_succ_apply', ih,
        failStep_stopped maxAttempts _ hterm.1]

/-! ### Cost models (src/models) and `TradeSimulator.simulate_trade`
(src/main.py).  Python floats are modelled by `ℝ`; the decimal rate tables
are kept in `ℚ` so that lookups evaluate by `rfl`. -/

/-- `OKX_FEE_TIERS` (src/models/fee.py): `(tier, maker_rate, taker_rate)`
with the rates as exact decimals. -/
def OKX_FEE_TIERS : List (String × ℚ × ℚ) :=
  [("VIP0", 8 / 10000, 10 / 10000), ("VIP1", 7 / 10000, 9 / 10000),
   ("VIP2", 6 / 10000, 8 / 10000), ("VIP3", 5 / 10000, 7 / 10000),
   ("VIP4", 4 / 10000, 6 / 10000), ("VIP5", 3 / 10000, 5 / 10000)]

/-- Membership test and rate lookup in the fee-tier table
(`fee_tier not in self.fee_tiers` / `self.fee_tiers[fee_tier]`). -/
def lookupTier (tier : String) : Option (ℚ × ℚ) :=
  (OKX_FEE_TIERS.find? fun e => e.1 == tier).map (·.2)

/-- Result record of `FeeModel.calculate_fee`. -/
structure FeeResult where
  maker_fee : ℝ
  taker_fee : ℝ
  total_fee : ℝ
  effective_rate : ℝ
  effective_bps : ℝ
  notional : ℝ

/-- `FeeModel.calculate_fee`, line by line: an unknown tier falls back to
`'VIP0'`; `maker_fee = notional * maker_rate * maker_proportion`;
`taker_fee = notional * taker_rate * (1 - maker_proportion)`;
`effective_rate = total_fee / notional if notional > 0 else 0`. -/
noncomputable def calculate_fee (quantity price : ℝ) (fee_tier : String)
    (maker_proportion : ℝ) : FeeResult :=
  let rates := match lookupTier fee_tier with
    | some r => r
    | none => (lookupTier "VIP0").getD (0, 0)
  let maker_rate : ℝ := (rates.1 : ℚ)
  let taker_rate : ℝ := (rates.2 : ℚ)
  let notional := quantity * price
  let maker_fee := notional * maker_rate * maker_proportion
  let taker_fee := notional * taker_rate * (1 - maker_proportion)
  let total_fee := maker_fee + taker_fee
  let effective_rate := if 0 < notional then total_fee / notional else 0
  ⟨maker_fee, taker_fee, total_fee, effective_rate, effective_rate * 10000,
    notional⟩

/-- Almgren-Chriss model parameters
(`AlmgrenChrissModel.__init__`, src/models/market_impact.py). -/
structure AlmgrenChrissModel where
  sigma : ℝ
  eta : ℝ
  gamma : ℝ
  T : ℝ
  X : ℝ

/-- Result record of `AlmgrenChrissModel.calculate_market_impact`. -/
structure ImpactResult where
  temporary_impact : ℝ
  permanent_impact : ℝ
  total_impact : ℝ
  temporary_impact_bps : ℝ
  permanent_impact_bps : ℝ
  total_impact_bps : ℝ
  participation_rate : ℝ

/-- `AlmgrenChrissModel.calculate_market_impact`.  Two inputs make the
Python source raise `ZeroDivisionError`, modelled by `Except.error`: a zero
`market_volume` raises immediately at
`participation_rate = quantity / market_volume` (a pure-float division),
and a zero `price` raises at
`permanent_impact_bps = (permanent_impact / price) * 10000` (also
pure-float; the preceding `temporary_impact / price` is a numpy float and
merely warns), so no result dictionary is produced in either case.  For
non-zero `market_volume` and `price` all divisions are ordinary field
divisions. -/
noncomputable def calculate_market_impact (m : AlmgrenChrissModel)
    (quantity price market_volume : ℝ) (volatility : Option ℝ) :
    Except String ImpactResult :=
  if market_volume = 0 then .error "ZeroDivisionError"
  else
    let sigma := volatility.getD m.sigma
    let participation_rate := quantity / market_volume
    let temporary_impact :=
      m.eta * sigma * Real.sqrt m.T * participation_rate * price
    let permanent_impact := m.gamma * participation_rate * price
    let total_impact := temporary_impact + permanent_impact
    if price = 0 then .error "ZeroDivisionError"
    else .ok ⟨temporary_impact, permanent_impact, total_impact,
      temporary_impact / price * 10000, permanent_impact / price * 10000,
      total_impact / price * 10000, participation_rate⟩

/-- A slippage model is either the unfitted heuristic or an externally
fitted regressor.  Modelled from the spec: the fitted variant (an sklearn
`QuantileRegressor`/`LinearRegression` pipeline, external to this
repository) is "a trained statistical regressor" over the feature vector
`(quantity, volatility, spread_bps)`, i.e. an affine map of the features
with the standard scaler folded into the coefficients. -/
inductive SlippageModel where
  | unfitted
  | fitted (w1 w2 w3 b : ℝ)

/-- Result record of `SlippageModel.estimate_slippage`. -/
structure SlippageResult where
  slippage : ℝ
  slippage_bps : ℝ

/-- `SlippageModel.estimate_slippage`: the unfitted heuristic is
`slippage_bps = spread_bps / 2 + quantity * volatility * 0.1`, the fitted
branch evaluates the regressor; either way
`slippage = slippage_bps / 10000 * price`. -/
noncomputable def estimate_slippage (model : SlippageModel)
    (quantity price volatility spread_bps : ℝ) : SlippageResult :=
  match model with
  | .unfitted =>
      let slippage_bps := spread_bps / 2 + quantity * volatility * 0.1
      ⟨slippage_bps / 10000 * price, slippage_bps⟩
  | .fitted w1 w2 w3 b =>
      let slippage_bps := w1 * quantity + w2 * volatility + w3 * spread_bps + b
      ⟨slippage_bps / 10000 * price, slippage_bps⟩

/-- The logistic function, `predict_proba` of a logistic regression. -/
noncomputable def sigmoid (z : ℝ) : ℝ := 1 / (1 + Real.exp (-z))

/-- A maker/taker model is either the unfitted heuristic or an externally
fitted classifier.  Modelled from the spec: the fitted variant (sklearn
`LogisticRegression.predict_proba`, external to this repository) is "a
fitted binary/probabilistic classifier over (quantity, volatility,
spread_bps)" producing the maker probability directly, i.e. the logistic
function of an affine map of the features with the standard scaler folded
into the coefficients. -/
inductive MakerTakerModel where
  | unfitted
  | fitted (w1 w2 w3 b : ℝ)

/-- Result record of `MakerTakerModel.predict_maker_taker`. -/
structure MakerTakerResult where
  maker_proportion : ℝ
  taker_proportion : ℝ

/-- `MakerTakerModel.predict_maker_taker`, line by line: market orders are
100% taker; otherwise the unfitted heuristic blends the base 0.5 maker
proportion down by capped volatility/spread/quantity factors and clamps to
`[0, 1]`, and the fitted branch returns the classifier's maker
probability; `taker_proportion = 1 - maker_proportion` in both. -/
noncomputable def predict_maker_taker (model : MakerTakerModel)
    (quantity volatility spread_bps : ℝ) (order_type : String) :
    MakerTakerResult :=
  if strLower order_type = "market" then ⟨0, 1⟩
  else
    match model with
    | .unfitted =>
        let base_maker : ℝ := 0.5
        let vol_factor := min 1 (volatility * 2)
        let spread_factor := min 1 (spread_bps / 20)
        let quantity_factor := min 1 (quantity / 10)
        let maker_proportion := max 0 (min 1 (base_maker - vol_factor * 0.2
          - spread_factor * 0.2 - quantity_factor * 0.1))
        ⟨maker_proportion, 1 - maker_proportion⟩
    | .fitted w1 w2 w3 b =>
        let maker_proportion :=
          sigmoid (w1 * quantity + w2 * volatility + w3 * spread_bps + b)
        ⟨maker_proportion, 1 - maker_proportion⟩

/-- `config.DEFAULT_MARKET_PARAMS`:
`(volatility, avg_daily_volume, avg_spread_bps)` per `(exchange, asset)`. -/
def DEFAULT_MARKET_PARAMS (exchange asset : String) : Option (ℚ × ℚ × ℚ) :=
  if exchange = "OKX" then
    if asset = "BTC-USDT" then some (3 / 10, 1000000000, 1)
    else if asset = "ETH-USDT" then some (4 / 10, 500000000, 3 / 2)
    else if asset = "SOL-USDT" then some (6 / 10, 100000000, 2)
    else if asset = "XRP-USDT" then some (1 / 2, 50000000, 5 / 2)
    else if asset = "ADA-USDT" then some (11 / 20, 30000000, 3)
    else none
  else none

/-- `market_params.get('avg_daily_volume', 1000000000)` in
`simulate_trade`. -/
def marketVolume (exchange asset : String) : ℚ :=
  ((DEFAULT_MARKET_PARAMS exchange asset).map (·.2.1)).getD 1000000000

/-- Every configured average daily volume is positive, and so is the
default `1000000000`, so `simulate_trade` never hands the impact model a
zero market volume. -/
theorem marketVolume_pos (exchange asset : String) :
    0 < marketVolume exchange asset := by
  unfold marketVolume DEFAULT_MARKET_PARAMS
  split_ifs <;> norm_num

/-- The impact model constructed in `TradeSimulator.__init__` from
`config.ALMGREN_CHRISS_PARAMS` (`eta = 0.1`, `gamma = 0.1`, `T = 1.0`) with
the defaulted `sigma = 0.3` and `X = 1.0`. -/
noncomputable def simulatorImpactModel : AlmgrenChrissModel :=
  ⟨0.3, 0.1, 0.1, 1, 1⟩

/-- Reference price used by `simulate_trade`: the cached snapshot's
`mid_price`, or the hard-coded default `50000` when no snapshot is
cached. -/
noncomputable def refPrice (orderbook : Option OrderbookData) : ℝ :=
  match orderbook with
  | none => 50000
  | some ob => ((mid_price ob : ℚ) : ℝ)

/-- Reference spread used by `simulate_trade`: the cached snapshot's
`spread_bps`, or the hard-coded default `1.0`. -/
noncomputable def refSpreadBps (orderbook : Option OrderbookData) : ℝ :=
  match orderbook with
  | none => 1
  | some ob => ((spread_bps ob : ℚ) : ℝ)

/-- The composite result of `TradeSimulator.simulate_trade`.  The `latency`
sub-dictionary (wall-clock performance statistics) is not modelled. -/
structure SimResult where
  slippage : SlippageResult
  fees : FeeResult
  market_impact : ImpactResult
  maker_taker : MakerTakerResult
  net_cost_value : ℝ
  net_cost_bps : ℝ
  net_cost_percent : ℝ
  price : ℝ
  spread_bps : ℝ

/-- `TradeSimulator.simulate_trade`, line by line: reference price and
spread from the cached snapshot or the hard-coded defaults, market volume
from `DEFAULT_MARKET_PARAMS`, then maker/taker, fees, market impact and
slippage in the source's order, then
`net_cost_value = slippage + total_fee + total_impact` and the
basis-point/percent expressions guarded by `price > 0`.  A zero reference
price propagates the `ZeroDivisionError` raised inside
`calculate_market_impact`.  (For `quantity = 0` with positive price the
Python bps/percent lines produce IEEE infinities rather than raising —
numpy floats — a floating-point artefact not modelled here; no theorem
below concerns that case.) -/
noncomputable def simulate_trade (orderbook : Option OrderbookData)
    (slippage_model : SlippageModel) (maker_taker_model : MakerTakerModel)
    (exchange asset order_type : String) (quantity volatility : ℝ)
    (fee_tier : String) : Except String SimResult :=
  let price := refPrice orderbook
  let sbps := refSpreadBps orderbook
  let market_volume : ℝ := (marketVolume exchange asset : ℚ)
  let maker_taker :=
    predict_maker_taker maker_taker_model quantity volatility sbps order_type
  let fees := calculate_fee quantity price fee_tier maker_taker.maker_proportion
  match calculate_market_impact simulatorImpactModel quantity price
    market_volume (some volatility) with
  | .error e => .error e
  | .ok market_impact =>
      let slippage :=
        estimate_slippage slippage_model quantity price volatility sbps
      let net_cost_value :=
        slippage.slippage + fees.total_fee + market_impact.total_impact
      .ok ⟨slippage, fees, market_impact, maker_taker, net_cost_value,
        if price > 0 then net_cost_value / (quantity * price) * 10000 else 0,
        if price > 0 then net_cost_value / (quantity * price) * 100 else 0,
        price, sbps⟩

/-- Snapshot with an empty ask ladder, whose `mid_price` is 0 (reachable in
the source: a feed frame may carry an empty `asks` array). -/
def exBookNoAsks : OrderbookData := mkOrderbook [] [(99, 1)]

/-- The reference price of the empty-ask snapshot is 0. -/
theorem refPrice_exBookNoAsks : refPrice (some exBookNoAsks) = 0 := by
  have hm : mid_price exBookNoAsks = 0 := by
    simp [mid_price, bestAsk, bestBid, exBookNoAsks, mkOrderbook, sortAsc,
      sortDesc, insertDesc]
  simp [refPrice, hm]

/-- C5 counterexample.  With a cached snapshot whose ask ladder is empty
the reference price is `mid_price = 0`, and `simulate_trade` does not
return a result with zero basis-point cost as claimed: the call raises
`ZeroDivisionError` inside `calculate_market_impact` (the unguarded
`permanent_impact / price`) before the guarded net-cost lines run. -/
theorem c5_zero_price_raises_not_returns :
    simulate_trade (some exBookNoAsks) .unfitted .unfitted "OKX" "BTC-USDT"
      "Market" 100 0.3 "VIP0" = .error "ZeroDivisionError" := by
  have hv : ((marketVolume "OKX" "BTC-USDT" : ℚ) : ℝ) ≠ 0 :=
    ne_of_gt (by exact_mod_cast marketVolume_pos "OKX" "BTC-USDT")
  simp only [simulate_trade, calculate_market_impact, if_neg hv,
    if_pos refPrice_exBookNoAsks]

/-- C5, amended.  Whenever the reference price is non-zero,
`simulate_trade` returns a result whose net cost value is exactly the sum
of the independently recomputed slippage value, total fee and total market
impact, and whose basis-point and percent expressions equal
`net_cost / (quantity * price) * 10000` (resp. `* 100`) when the price is
positive (and the quantity non-zero, floats producing infinities otherwise)
and `0` when it is not; when the reference price is exactly `0` the call
raises `ZeroDivisionError` from the market-impact computation instead of
returning. -/
theorem c5_net_cost_aggregation (orderbook : Option OrderbookData)
    (slippage_model : SlippageModel) (maker_taker_model : MakerTakerModel)
    (exchange asset order_type : String) (quantity volatility : ℝ)
    (fee_tier : String) :
    (refPrice orderbook ≠ 0 →
      ∃ r impact,
        calculate_market_impact simulatorImpactModel quantity
          (refPrice orderbook) ((marketVolume exchange asset : ℚ) : ℝ)
          (some volatility) = .ok impact ∧
        simulate_trade orderbook slippage_model maker_taker_model exchange
          asset order_type quantity volatility fee_tier = .ok r ∧
        r.net_cost_value =
          (estimate_slippage slippage_model quantity (refPrice orderbook)
            volatility (refSpreadBps orderbook)).slippage
          + (calculate_fee quantity (refPrice orderbook) fee_tier
              (predict_maker_taker maker_taker_model quantity volatility
                (refSpreadBps orderbook) order_type).maker_proportion).total_fee
          + impact.total_impact ∧
        (0 < refPrice orderbook → quantity ≠ 0 →
          r.net_cost_bps
            = r.net_cost_value / (quantity * refPrice orderbook) * 10000 ∧
          r.net_cost_percent
            = r.net_cost_value / (quantity * refPrice orderbook) * 100) ∧
        (¬ 0 < refPrice orderbook →
          r.net_cost_bps = 0 ∧ r.net_cost_percent = 0)) ∧
    (refPrice orderbook = 0 →
      simulate_trade orderbook slippage_model maker_taker_model exchange asset
        order_type quantity volatility fee_tier = .error "ZeroDivisionError") := by
  have hv : ((marketVolume exchange asset : ℚ) : ℝ) ≠ 0 :=
    ne_of_gt (by exact_mod_cast marketVolume_pos exchange asset)
  constructor
  · intro hp
    simp only [simulate_trade, calculate_market_impact, if_neg hv, if_neg hp]
    refine ⟨_, _, rfl, rfl, rfl, ?_, ?_⟩
    · intro hp' _
      simp only [if_pos hp']
      exact ⟨trivial, trivial⟩
    · intro hp'
      simp only [if_neg hp']
      exact ⟨trivial, trivial⟩
  · intro hp
    simp only [simulate_trade, calculate_market_impact, if_neg hv, if_pos hp]

/-- C5 witness: with no cached snapshot the reference price is 50000, so
the amended theorem yields a returned result; with the empty-ask snapshot
it yields the `ZeroDivisionError`. -/
theorem c5_net_cost_aggregation_witness :
    (simulate_trade none .unfitted .unfitted "OKX" "BTC-USDT" "Market" 100
      0.3 "VIP0").isOk = true ∧
    simulate_trade (some exBookNoAsks) .unfitted .unfitted "OKX" "ETH-USDT"
      "Limit" 50 0.4 "VIP1" = .error "ZeroDivisionError" := by
  constructor
  · obtain ⟨r, impact, _, hsim, -⟩ :=
      (c5_net_cost_aggregation none .unfitted .unfitted "OKX" "BTC-USDT"
        "Market" 100 0.3 "VIP0").1 (by norm_num [refPrice])
    rw [hsim]
    rfl
  · exact (c5_net_cost_aggregation (some exBookNoAsks) .unfitted .unfitted
      "OKX" "ETH-USDT" "Limit" 50 0.4 "VIP1").2 refPrice_exBookNoAsks

/-- C6.  For every simulation request with no cached snapshot for its
`(exchange, asset)` key, `simulate_trade` substitutes the default reference
price 50000 and default spread 1.0 basis point, and returns a complete
cost result (an `Except.ok` record carrying all components) rather than
raising. -/
theorem c6_missing_snapshot_degraded_defaults (slippage_model : SlippageModel)
    (maker_taker_model : MakerTakerModel)
    (exchange asset order_type : String) (quantity volatility : ℝ)
    (fee_tier : String) :
    ∃ r, simulate_trade none slippage_model maker_taker_model exchange asset
        order_type quantity volatility fee_tier = .ok r ∧
      r.price = 50000 ∧ r.spread_bps = 1 := by
  have hv : ((marketVolume exchange asset : ℚ) : ℝ) ≠ 0 :=
    ne_of_gt (by exact_mod_cast marketVolume_pos exchange asset)
  simp only [simulate_trade, refPrice, refSpreadBps, calculate_market_impact,
    if_neg hv, if_neg (show (50000 : ℝ) ≠ 0 by norm_num)]
  exact ⟨_, rfl, rfl, rfl⟩

/-- C7.  For nonnegative quantity and price and a known fee tier: full
maker proportion gives `total_fee = notional * maker_rate`, full taker
gives `notional * taker_rate`, the total is always `maker_fee + taker_fee`,
the effective rate is `total / notional` for non-zero notional and `0` for
zero notional, and an unknown tier produces exactly the result of the
lowest configured tier `VIP0`. -/
theorem c7_fee_model_properties (quantity price : ℝ) (tier : String)
    (mr tr : ℚ) (maker_proportion : ℝ) (hq : 0 ≤ quantity) (hp : 0 ≤ price)
    (ht : lookupTier tier = some (mr, tr)) :
    (calculate_fee quantity price tier 1).total_fee = quantity * price * mr ∧
    (calculate_fee quantity price tier 0).total_fee = quantity * price * tr ∧
    (calculate_fee quantity price tier maker_proportion).total_fee
      = (calculate_fee quantity price tier maker_proportion).maker_fee
        + (calculate_fee quantity price tier maker_proportion).taker_fee ∧
    (quantity * price ≠ 0 →
      (calculate_fee quantity price tier maker_proportion).effective_rate
        = (calculate_fee quantity price tier maker_proportion).total_fee
            / (quantity * price)) ∧
    (quantity * price = 0 →
      (calculate_fee quantity price tier maker_proportion).effective_rate
        = 0) ∧
    (∀ t, lookupTier t = none →
      calculate_fee quantity price t maker_proportion
        = calculate_fee quantity price "VIP0" maker_proportion) := by
  refine ⟨?_, ?_, ?_, ?_, ?_, ?_⟩
  · simp only [calculate_fee, ht]; ring
  · simp only [calculate_fee, ht]; ring
  · rfl
  · intro hne
    have hpos : 0 < quantity * price :=
      lt_of_le_of_ne (mul_nonneg hq hp) (Ne.symm hne)
    simp only [calculate_fee, ht, if_pos hpos]
  · intro h0
    simp only [calculate_fee, ht, h0]
    norm_num
  · intro t hnone
    simp only [calculate_fee, hnone,
      show lookupTier "VIP0" = some (8 / 10000, 10 / 10000) from rfl]
    rfl

/-- C7 witness at quantity 2, price 3, the known tier `VIP1`
(`maker 0.0007`, `taker 0.0009`) and the unknown tier `UNKNOWN`. -/
theorem c7_fee_model_properties_witness :
    (calculate_fee 2 3 "VIP1" 1).total_fee = 2 * 3 * ((7 / 10000 : ℚ) : ℝ) ∧
    (calculate_fee 2 3 "VIP1" 0).total_fee = 2 * 3 * ((9 / 10000 : ℚ) : ℝ) ∧
    (calculate_fee 2 3 "VIP1" (1 / 2)).total_fee
      = (calculate_fee 2 3 "VIP1" (1 / 2)).maker_fee
        + (calculate_fee 2 3 "VIP1" (1 / 2)).taker_fee ∧
    (calculate_fee 2 3 "VIP1" (1 / 2)).effective_rate
      = (calculate_fee 2 3 "VIP1" (1 / 2)).total_fee / (2 * 3) ∧
    calculate_fee 2 3 "UNKNOWN" (1 / 2)
      = calculate_fee 2 3 "VIP0" (1 / 2) := by
  obtain ⟨h1, h2, h3, h4, -, h6⟩ :=
    c7_fee_model_properties 2 3 "VIP1" (7 / 10000) (9 / 10000) (1 / 2)
      (by norm_num) (by norm_num) rfl
  exact ⟨h1, h2, h3, h4 (by norm_num), h6 "UNKNOWN" rfl⟩

/-- C8.  For every model, quantity, non-zero price, non-zero volume,
volatility override and scale factor `c`: the total impact is exactly the
sum of the temporary and permanent impacts, the temporary impact is
`eta * sigma * sqrt T * participation_rate * price` and the permanent
impact `gamma * participation_rate * price` with
`participation_rate = quantity / market_volume`, and scaling the quantity
by `c` (volume and all other inputs fixed) scales the participation rate
and all three impacts by `c`.  (At `market_volume = 0` or `price = 0` the
source raises `ZeroDivisionError` and produces no impacts at all.) -/
theorem c8_impact_additive_and_linear (m : AlmgrenChrissModel)
    (quantity price market_volume : ℝ) (volatility : Option ℝ) (c : ℝ)
    (hv : market_volume ≠ 0) (hp : price ≠ 0) :
    ∃ r r',
      calculate_market_impact m quantity price market_volume volatility
        = .ok r ∧
      calculate_market_impact m (c * quantity) price market_volume volatility
        = .ok r' ∧
      r.total_impact = r.temporary_impact + r.permanent_impact ∧
      r.temporary_impact
        = m.eta * (volatility.getD m.sigma) * Real.sqrt m.T
            * (quantity / market_volume) * price ∧
      r.permanent_impact = m.gamma * (quantity / market_volume) * price ∧
      r.participation_rate = quantity / market_volume ∧
      r'.participation_rate = c * r.participation_rate ∧
      r'.temporary_impact = c * r.temporary_impact ∧
      r'.permanent_impact = c * r.permanent_impact ∧
      r'.total_impact = c * r.total_impact := by
  simp only [calculate_market_impact, if_neg hv, if_neg hp]
  refine ⟨_, _, rfl, rfl, rfl, rfl, rfl, rfl, ?_, ?_, ?_, ?_⟩ <;>
    simp only <;> ring

/-- C8 witness: the simulator's configured model at quantity 2, price 10,
market volume 4, no volatility override, scale factor 3. -/
theorem c8_impact_additive_and_linear_witness :
    ∃ r r',
      calculate_market_impact simulatorImpactModel 2 10 4 none = .ok r ∧
      calculate_market_impact simulatorImpactModel (3 * 2) 10 4 none
        = .ok r' ∧
      r.total_impact = r.temporary_impact + r.permanent_impact ∧
      r.temporary_impact
        = simulatorImpactModel.eta * ((none : Option ℝ).getD
            simulatorImpactModel.sigma) * Real.sqrt simulatorImpactModel.T
            * (2 / 4) * 10 ∧
      r.permanent_impact = simulatorImpactModel.gamma * (2 / 4) * 10 ∧
      r.participation_rate = 2 / 4 ∧
      r'.participation_rate = 3 * r.participation_rate ∧
      r'.temporary_impact = 3 * r.temporary_impact ∧
      r'.permanent_impact = 3 * r.permanent_impact ∧
      r'.total_impact = 3 * r.total_impact :=
  c8_impact_additive_and_linear simulatorImpactModel 2 10 4 none 3
    (by norm_num) (by norm_num)

/-- The logistic function is nonnegative. -/
theorem sigmoid_nonneg (z : ℝ) : 0 ≤ sigmoid z := by
  unfold sigmoid
  positivity

/-- The logistic function is at most one. -/
theorem sigmoid_le_one (z : ℝ) : sigmoid z ≤ 1 := by
  unfold sigmoid
  rw [div_le_one (by positivity)]
  linarith [Real.exp_pos (-z)]

/-- C9.  For every model state (fitted or not) and all numeric inputs,
`predict_maker_taker` with order type `"Market"` returns maker
proportion 0 and taker proportion 1. -/
theorem c9_market_order_full_taker (model : MakerTakerModel)
    (quantity volatility spread_bps : ℝ) :
    predict_maker_taker model quantity volatility spread_bps "Market"
      = ⟨0, 1⟩ := by
  have h : strLower "Market" = "market" := rfl
  simp [predict_maker_taker, h]

/-- C10.  In every branch of `predict_maker_taker` — market order, unfitted
heuristic, fitted classifier — both proportions lie in `[0, 1]` and they
sum exactly to 1. -/
theorem c10_proportions_unit_interval_sum_one (model : MakerTakerModel)
    (quantity volatility spread_bps : ℝ) (order_type : String) :
    0 ≤ (predict_maker_taker model quantity volatility spread_bps
          order_type).maker_proportion ∧
    (predict_maker_taker model quantity volatility spread_bps
      order_type).maker_proportion ≤ 1 ∧
    0 ≤ (predict_maker_taker model quantity volatility spread_bps
          order_type).taker_proportion ∧
    (predict_maker_taker model quantity volatility spread_bps
      order_type).taker_proportion ≤ 1 ∧
    (predict_maker_taker model quantity volatility spread_bps
        order_type).maker_proportion
      + (predict_maker_taker model quantity volatility spread_bps
          order_type).taker_proportion = 1 := by
  unfold predict_maker_taker
  split
  · norm_num
  · cases model with
    | unfitted =>
        simp only
        have h0 : (0 : ℝ) ≤ max 0 (min 1 (0.5 - min 1 (volatility * 2) * 0.2
            - min 1 (spread_bps / 20) * 0.2 - min 1 (quantity / 10) * 0.1)) :=
          le_max_left _ _
        have h1 : max 0 (min 1 (0.5 - min 1 (volatility * 2) * 0.2
            - min 1 (spread_bps / 20) * 0.2 - min 1 (quantity / 10) * 0.1))
            ≤ 1 :=
          max_le (by norm_num) (min_le_left _ _)
        refine ⟨h0, h1, by linarith, by linarith, by ring⟩
    | fitted w1 w2 w3 b =>
        simp only
        have h0 :=
          sigmoid_nonneg (w1 * quantity + w2 * volatility + w3 * spread_bps + b)
        have h1 :=
          sigmoid_le_one (w1 * quantity + w2 * volatility + w3 * spread_bps + b)
        refine ⟨h0, h1, by linarith, by linarith, by ring⟩

end GoQuant
